import Mathlib

set_option maxHeartbeats 1000000

namespace GcpTunnel

/-!
A shallow embedding of the provisioning web application in
src/gcp-tunnel-client/webapp/app.py.  Network responses, random values and the
supervisor environment are passed in explicitly; every handler becomes a pure
function from its inputs and such an environment to its result, the stores it
writes and the list of outbound calls it issues.
-/

/-- Python truthiness of an optional string (`if s:`): `None` and `""` are falsy. -/
def isTruthy : Option String → Bool
  | none => false
  | some s => !(s == "")

/-- Python `o or d` for an optional string: the stored value unless it is
`None` or empty, in which case the default. -/
def pyOr (o : Option String) (d : String) : String :=
  match o with
  | none => d
  | some s => if s = "" then d else s

/-! ### base64url (as used by `base64.urlsafe_b64encode(...).rstrip("=")`
and `secrets.token_urlsafe`) -/

/-- The base64url alphabet. -/
def b64alphabet : List Char :=
  "ABCDEFGHIJKLMNOPQRSTUVWXYZabcdefghijklmnopqrstuvwxyz0123456789-_".data

/-- The i-th character of the base64url alphabet. -/
def b64Char (i : Nat) : Char := b64alphabet.getD i '?'

/-- Padded base64url encoding of a byte list, as `base64.urlsafe_b64encode`
produces it. -/
def b64EncPadded : List Nat → List Char
  | [] => []
  | [b1] => [b64Char (b1 / 4), b64Char (b1 % 4 * 16), '=', '=']
  | [b1, b2] => [b64Char (b1 / 4), b64Char (b1 % 4 * 16 + b2 / 16), b64Char (b2 % 16 * 4), '=']
  | b1 :: b2 :: b3 :: rest =>
    b64Char (b1 / 4) :: b64Char (b1 % 4 * 16 + b2 / 16) ::
      b64Char (b2 % 16 * 4 + b3 / 64) :: b64Char (b3 % 64) :: b64EncPadded rest

/-- Unpadded base64url encoding of a byte list (the specification's
`base64url_nopad`). -/
def b64EncNoPad : List Nat → List Char
  | [] => []
  | [b1] => [b64Char (b1 / 4), b64Char (b1 % 4 * 16)]
  | [b1, b2] => [b64Char (b1 / 4), b64Char (b1 % 4 * 16 + b2 / 16), b64Char (b2 % 16 * 4)]
  | b1 :: b2 :: b3 :: rest =>
    b64Char (b1 / 4) :: b64Char (b1 % 4 * 16 + b2 / 16) ::
      b64Char (b2 % 16 * 4 + b3 / 64) :: b64Char (b3 % 64) :: b64EncNoPad rest

/-- Drop leading characters equal to `c`. -/
def dropEq (c : Char) : List Char → List Char
  | [] => []
  | a :: t => if a = c then dropEq c t else a :: t

/-- Strip all trailing occurrences of `c`, i.e. Python `str.rstrip(c)`. -/
def rstripChar (c : Char) (l : List Char) : List Char :=
  (dropEq c l.reverse).reverse

/-- Python `s.rstrip(c)` on strings. -/
def pyRstrip (c : Char) (s : String) : String := String.mk (rstripChar c s.data)

/-- Position of a character in a list (64 = not found, for the alphabet). -/
def idxIn : List Char → Char → Nat
  | [], _ => 0
  | a :: t, c => if a = c then 0 else idxIn t c + 1

/-- Decode a base64url character to its 6-bit value. -/
def b64Val (c : Char) : Nat := idxIn b64alphabet c

/-- Decoder for unpadded base64url, inverse of `b64EncNoPad`. -/
def b64Decode : List Char → List Nat
  | c1 :: c2 :: c3 :: c4 :: rest =>
    (b64Val c1 * 4 + b64Val c2 / 16) ::
      (b64Val c2 % 16 * 16 + b64Val c3 / 4) ::
      (b64Val c3 % 4 * 64 + b64Val c4) :: b64Decode rest
  | [c1, c2] => [b64Val c1 * 4 + b64Val c2 / 16]
  | [c1, c2, c3] => [b64Val c1 * 4 + b64Val c2 / 16, b64Val c2 % 16 * 16 + b64Val c3 / 4]
  | _ => []

/-! ### SHA-256 (`hashlib.sha256`), over byte lists, words as `Nat` mod 2^32 -/

/-- 2^32, the word modulus. -/
def M32 : Nat := 4294967296

/-- Addition mod 2^32. -/
def add32 (a b : Nat) : Nat := (a + b) % M32

/-- Right rotation of a 32-bit word. -/
def rotr32 (n x : Nat) : Nat := ((x >>> n) ||| (x <<< (32 - n))) % M32

/-- SHA-256 small sigma 0. -/
def shaS0 (x : Nat) : Nat := rotr32 7 x ^^^ rotr32 18 x ^^^ (x >>> 3)

/-- SHA-256 small sigma 1. -/
def shaS1 (x : Nat) : Nat := rotr32 17 x ^^^ rotr32 19 x ^^^ (x >>> 10)

/-- SHA-256 big sigma 0. -/
def shaB0 (x : Nat) : Nat := rotr32 2 x ^^^ rotr32 13 x ^^^ rotr32 22 x

/-- SHA-256 big sigma 1. -/
def shaB1 (x : Nat) : Nat := rotr32 6 x ^^^ rotr32 11 x ^^^ rotr32 25 x

/-- SHA-256 choice function. -/
def shaCh (x y z : Nat) : Nat := (x &&& y) ^^^ ((x ^^^ 4294967295) &&& z)

/-- SHA-256 majority function. -/
def shaMaj (x y z : Nat) : Nat := (x &&& y) ^^^ (x &&& z) ^^^ (y &&& z)

/-- SHA-256 round constants (decimal). -/
def shaK : List Nat :=
  [1116352408, 1899447441, 3049323471, 3921009573, 961987163, 1508970993,
   2453635748, 2870763221, 3624381080, 310598401, 607225278, 1426881987,
   1925078388, 2162078206, 2614888103, 3248222580, 3835390401, 4022224774,
   264347078, 604807628, 770255983, 1249150122, 1555081692, 1996064986,
   2554220882, 2821834349, 2952996808, 3210313671, 3336571891, 3584528711,
   113926993, 338241895, 666307205, 773529912, 1294757372, 1396182291,
   1695183700, 1986661051, 2177026350, 2456956037, 2730485921, 2820302411,
   3259730800, 3345764771, 3516065817, 3600352804, 4094571909, 275423344,
   430227734, 506948616, 659060556, 883997877, 958139571, 1322822218,
   1537002063, 1747873779, 1955562222, 2024104815, 2227730452, 2361852424,
   2428436474, 2756734187, 3204031479, 3329325298]

/-- SHA-256 initial hash value (decimal). -/
def shaH0 : List Nat :=
  [1779033703, 3144134277, 1013904242, 2773480762,
   1359893119, 2600822924, 528734635, 1541459225]

/-- Combine big-endian bytes into 32-bit words. -/
def bytesToWords : List Nat → List Nat
  | a :: b :: c :: d :: rest => (a * 16777216 + b * 65536 + c * 256 + d) :: bytesToWords rest
  | _ => []

/-- Split a byte list into 64-byte blocks. -/
def chunks64 (l : List Nat) : List (List Nat) :=
  match l with
  | [] => []
  | a :: rest => (a :: rest).take 64 :: chunks64 (rest.drop 63)
termination_by l.length
decreasing_by simp [List.length_drop]; omega

/-- Extend the 16 message words of a block to the 64-entry schedule. -/
def shaExtend (w0 : Array Nat) : Array Nat :=
  (List.range 48).foldl
    (fun w _ =>
      let n := w.size
      w.push (add32 (add32 (shaS1 (w.getD (n - 2) 0)) (w.getD (n - 7) 0))
        (add32 (shaS0 (w.getD (n - 15) 0)) (w.getD (n - 16) 0))))
    w0

/-- One SHA-256 compression round over a block schedule. -/
def shaCompress (h : List Nat) (w : Array Nat) : List Nat :=
  match h with
  | [a0, b0, c0, d0, e0, f0, g0, h0] =>
    let final := (List.range 64).foldl
      (fun r t =>
        match r with
        | (a, b, c, d, e, f, g, hh) =>
          let t1 := add32 hh (add32 (shaB1 e)
            (add32 (shaCh e f g) (add32 (shaK.getD t 0) (w.getD t 0))))
          let t2 := add32 (shaB0 a) (shaMaj a b c)
          (add32 t1 t2, a, b, c, add32 d t1, e, f, g))
      (a0, b0, c0, d0, e0, f0, g0, h0)
    match final with
    | (a, b, c, d, e, f, g, hh) =>
      [add32 a0 a, add32 b0 b, add32 c0 c, add32 d0 d,
       add32 e0 e, add32 f0 f, add32 g0 g, add32 h0 hh]
  | _ => h

/-- SHA-256 message padding. -/
def shaPad (msg : List Nat) : List Nat :=
  let L := msg.length
  let r := (L + 1) % 64
  let k := if r ≤ 56 then 56 - r else 120 - r
  let bitLen := L * 8
  msg ++ [128] ++ List.replicate k 0 ++
    [(bitLen >>> 56) % 256, (bitLen >>> 48) % 256, (bitLen >>> 40) % 256, (bitLen >>> 32) % 256,
     (bitLen >>> 24) % 256, (bitLen >>> 16) % 256, (bitLen >>> 8) % 256, bitLen % 256]

/-- Big-endian bytes of a 32-bit word. -/
def wordBytes (w : Nat) : List Nat :=
  [(w >>> 24) % 256, (w >>> 16) % 256, (w >>> 8) % 256, w % 256]

/-- SHA-256 of a byte list, returned as the 32 digest bytes. -/
def sha256 (msg : List Nat) : List Nat :=
  let blocks := chunks64 (shaPad msg)
  let H := blocks.foldl (fun h block => shaCompress h (shaExtend (bytesToWords block).toArray)) shaH0
  H.foldr (fun w acc => wordBytes w ++ acc) []

/-- Bytes of an ASCII string (`str.encode()` for the ASCII strings used here). -/
def strBytes (s : String) : List Nat := s.data.map Char.toNat

/-! ### Application constants (module level in app.py) -/

/-- The fixed OAuth client identifier. -/
def GOOGLE_CLIENT_ID : String :=
  "292824132082-7a1h7ae29f4aepk6qng3296kdlnpqhea.apps.googleusercontent.com"

/-- Google's authorization endpoint. -/
def GOOGLE_AUTH_URL : String := "https://accounts.google.com/o/oauth2/v2/auth"

/-- Google's token endpoint. -/
def GOOGLE_TOKEN_URL : String := "https://oauth2.googleapis.com/token"

/-- `" ".join(SCOPES)`. -/
def SCOPES_joined : String :=
  "https://www.googleapis.com/auth/cloud-platform https://www.googleapis.com/auth/userinfo.email"

/-- The fixed tunnel server image. -/
def TUNNEL_IMAGE : String := "ghcr.io/bramalkema/gcp-ha-tunnel/tunnel-server:latest"

/-! ### Data model: token record, setup state, stores -/

/-- The OAuth token record; only `access_token` is ever read by the code. -/
structure Token where
  access_token : String
deriving DecidableEq

/-- The persisted setup state dictionary.  `none` models an absent key /
a JSON `null` value (the code treats both alike through `dict.get`). -/
structure SetupState where
  step : String
  project_id : Option String
  password : Option String
  server_url : Option String
deriving DecidableEq

/-- The default state returned by `get_setup_state` when no file exists. -/
def initialSetupState : SetupState :=
  { step := "start", project_id := none, password := none, server_url := none }

/-- `get_setup_state`: load the state file, or the default. -/
def get_setup_state (persisted : Option SetupState) : SetupState :=
  persisted.getD initialSetupState

/-- `generate_project_name`: fixed prefix plus the random hex suffix. -/
def generate_project_name (suffix : String) : String := "ha-tunnel-" ++ suffix

/-! ### Outbound calls issued via `gcp_api` / `requests` -/

/-- The structured service descriptor built in the deploy step
(`service_config` dict in `run_setup`), flattened to its leaf values. -/
structure ServiceConfig where
  apiVersion : String
  kind : String
  name : String
  ingress : String
  minScale : String
  maxScale : String
  cpuThrottling : String
  containerConcurrency : Nat
  timeoutSeconds : Nat
  image : String
  authEnvValue : String
  cpuLimit : String
  memoryLimit : String
  containerPort : Nat
deriving DecidableEq

/-- The service descriptor as the source constructs it for a given password. -/
def service_config (password : String) : ServiceConfig :=
  { apiVersion := "serving.knative.dev/v1",
    kind := "Service",
    name := "ha-tunnel",
    ingress := "all",
    minScale := "0",
    maxScale := "1",
    cpuThrottling := "true",
    containerConcurrency := 80,
    timeoutSeconds := 3600,
    image := TUNNEL_IMAGE,
    authEnvValue := "hauser:" ++ password,
    cpuLimit := "1",
    memoryLimit := "256Mi",
    containerPort := 8080 }

/-- The flat options map pushed to the supervisor in `update_addon_config`. -/
structure AddonOptions where
  server_url : String
  auth_user : String
  auth_pass : String
  google_project_id : String
  local_port : Nat
  keepalive : String
  log_level : String
  google_secure_devices_pin : String
deriving DecidableEq

/-- Request bodies of the outbound calls. -/
inductive ReqBody where
  | empty
  | projectBody (projectId : String) (name : String)
  | billingBody (billingAccountName : String)
  | serviceBody (cfg : ServiceConfig)
  | iamBody (role : String) (member : String)
  | tokenBody (code : String) (code_verifier : Option String)
  | optionsBody (cfg : AddonOptions)
deriving DecidableEq

/-- One outbound HTTP request. -/
structure ApiCall where
  method : String
  url : String
  body : ReqBody
deriving DecidableEq

/-- The project-create call of step 1. -/
def createProjectCall (project_id : String) : ApiCall :=
  ⟨"POST", "https://cloudresourcemanager.googleapis.com/v1/projects",
    ReqBody.projectBody project_id "HA Tunnel"⟩

/-- The billing-attach call of step 2. -/
def billingAttachCall (project_id billing_account : String) : ApiCall :=
  ⟨"PUT", "https://cloudbilling.googleapis.com/v1/projects/" ++ project_id ++ "/billingInfo",
    ReqBody.billingBody billing_account⟩

/-- One API-enable call of step 3. -/
def enableApiCall (project_id api : String) : ApiCall :=
  ⟨"POST", "https://serviceusage.googleapis.com/v1/projects/" ++ project_id ++
    "/services/" ++ api ++ ":enable", ReqBody.empty⟩

/-- The service-create call of step 4. -/
def createServiceCall (project_id : String) (cfg : ServiceConfig) : ApiCall :=
  ⟨"POST", "https://run.googleapis.com/apis/serving.knative.dev/v1/namespaces/" ++
    project_id ++ "/services", ReqBody.serviceBody cfg⟩

/-- The fallback service-update call of step 4. -/
def updateServiceCall (project_id : String) (cfg : ServiceConfig) : ApiCall :=
  ⟨"PUT", "https://run.googleapis.com/apis/serving.knative.dev/v1/namespaces/" ++
    project_id ++ "/services/ha-tunnel", ReqBody.serviceBody cfg⟩

/-- The IAM policy call of step 5. -/
def setIamCall (project_id : String) : ApiCall :=
  ⟨"POST", "https://run.googleapis.com/v1/projects/" ++ project_id ++
    "/locations/us-central1/services/ha-tunnel:setIamPolicy",
    ReqBody.iamBody "roles/run.invoker" "allUsers"⟩

/-- The service GET fetching the public URL. -/
def getServiceCall (project_id : String) : ApiCall :=
  ⟨"GET", "https://run.googleapis.com/v1/projects/" ++ project_id ++
    "/locations/us-central1/services/ha-tunnel", ReqBody.empty⟩

/-- The token-exchange POST in `auth_callback`. -/
def tokenExchangeCall (code : String) (code_verifier : Option String) : ApiCall :=
  ⟨"POST", GOOGLE_TOKEN_URL, ReqBody.tokenBody code code_verifier⟩

/-! ### Environments: responses the network gives to each call -/

/-- A plain HTTP response (status and `.text`). -/
structure HttpResp where
  status : Nat
  text : String
deriving DecidableEq

/-- Response to the final service GET; `url` is
`resp.json().get("status", \x7b\x7d).get("url", "")`, so `""` when missing. -/
structure GetServiceResp where
  status : Nat
  url : String
deriving DecidableEq

/-- The supervisor environment of `update_addon_config`: the token from
`SUPERVISOR_TOKEN`, whether a `requests.post` to the supervisor raises a
connection error, and otherwise the status of the options POST. -/
structure PublisherEnv where
  supervisorToken : Option String
  raises : Bool
  optionsStatus : Nat
deriving DecidableEq

/-- Everything the environment decides during one `run_setup` invocation:
the HTTP responses (API-enable and IAM responses are ignored by the code and
therefore not modelled), the two random generations, and the supervisor. -/
structure RunEnv where
  createProject : HttpResp
  linkBilling : HttpResp
  createService : HttpResp
  updateService : HttpResp
  getService : GetServiceResp
  genProjectSuffix : String
  genPassword : String
  publisher : PublisherEnv
deriving DecidableEq

/-! ### update_addon_config -/

/-- The options map built from the setup state. -/
def addon_config (st : SetupState) : AddonOptions :=
  { server_url := st.server_url.getD "",
    auth_user := "hauser",
    auth_pass := st.password.getD "",
    google_project_id := st.project_id.getD "",
    local_port := 8123,
    keepalive := "25s",
    log_level := "info",
    google_secure_devices_pin := "" }

/-- The options POST to the supervisor. -/
def optionsCall (st : SetupState) : ApiCall :=
  ⟨"POST", "http://supervisor/addons/self/options", ReqBody.optionsBody (addon_config st)⟩

/-- The restart POST to the supervisor. -/
def restartCall : ApiCall :=
  ⟨"POST", "http://supervisor/addons/self/restart", ReqBody.empty⟩

/-- `update_addon_config`: returns the supervisor calls it issued, or, when a
post raises a connection error, that exception (`Except.error`), which the
caller's broad `except` turns into an error response. -/
def update_addon_config (st : SetupState) (env : PublisherEnv) : Except String (List ApiCall) :=
  if ¬ isTruthy env.supervisorToken then Except.ok []
  else if env.raises then Except.error "connection error"
  else if env.optionsStatus = 200 then Except.ok [optionsCall st, restartCall]
  else Except.ok [optionsCall st]

/-! ### run_setup -/

/-- The outcome of `run_setup`, mirroring the distinct `jsonify` returns. -/
inductive SetupResult where
  | notAuthenticated
  | projectCreateFailed (detail : String)
  | billingLinkFailed (detail : String)
  | deployFailed (detail : String)
  | exceptionError (detail : String)
  | success (project_id : String) (server_url : String) (password : String)
deriving DecidableEq

/-- The HTTP status each `run_setup` return carries. -/
def resultHttpStatus : SetupResult → Nat
  | SetupResult.notAuthenticated => 401
  | SetupResult.projectCreateFailed _ => 500
  | SetupResult.billingLinkFailed _ => 400
  | SetupResult.deployFailed _ => 500
  | SetupResult.exceptionError _ => 500
  | SetupResult.success _ _ _ => 200

/-- Whether the JSON error body carries `billing_required: True`; only the
billing-link failure does. -/
def billing_required_flag : SetupResult → Bool
  | SetupResult.billingLinkFailed _ => true
  | _ => false

/-- Whether the outcome is the success return. -/
def isSuccess : SetupResult → Bool
  | SetupResult.success _ _ _ => true
  | _ => false

/-- Result, the persisted setup state after the call, and the outbound calls. -/
structure RunOutcome where
  result : SetupResult
  state : Option SetupState
  calls : List ApiCall
deriving DecidableEq

/-- Tail of `run_setup` from the IAM grant on: IAM call, URL fetch (recorded
into `server_url` only on a 200), persisting step `complete`, and the
best-effort publisher whose raised exception becomes an error return. -/
def finishPhase (project_id password : String) (st4 : SetupState) (calls : List ApiCall)
    (env : RunEnv) : RunOutcome :=
  let calls2 := calls ++ [setIamCall project_id, getServiceCall project_id]
  let st5 := if env.getService.status = 200 then
    { st4 with server_url := some env.getService.url } else st4
  let st6 := { st5 with step := "complete" }
  match update_addon_config st6 env.publisher with
  | Except.error e => ⟨SetupResult.exceptionError e, some st6, calls2⟩
  | Except.ok pc =>
    ⟨SetupResult.success project_id (st6.server_url.getD "") password, some st6, calls2 ++ pc⟩

/-- Step 4 of `run_setup`: create the service; on any non-2xx create response
fall back to updating with the same descriptor; fail the run if that also
returns non-2xx, reporting the update response's text. -/
def deployPhase (project_id password : String) (st3 : SetupState) (calls : List ApiCall)
    (env : RunEnv) : RunOutcome :=
  let st4 := { st3 with step := "deploying" }
  let cfg := service_config password
  if env.createService.status = 200 ∨ env.createService.status = 201 then
    finishPhase project_id password st4 (calls ++ [createServiceCall project_id cfg]) env
  else if env.updateService.status = 200 ∨ env.updateService.status = 201 then
    finishPhase project_id password st4
      (calls ++ [createServiceCall project_id cfg, updateServiceCall project_id cfg]) env
  else
    ⟨SetupResult.deployFailed ("Failed to deploy: " ++ env.updateService.text), some st4,
      calls ++ [createServiceCall project_id cfg, updateServiceCall project_id cfg]⟩

/-- Step 3 of `run_setup`: persist `enabling_apis`, fire the two enable calls
(responses ignored by the code), wait, and continue with the deploy step. -/
def enablePhase (project_id password : String) (st2 : SetupState) (calls : List ApiCall)
    (env : RunEnv) : RunOutcome :=
  let st3 := { st2 with step := "enabling_apis" }
  deployPhase project_id password st3
    (calls ++ [enableApiCall project_id "run.googleapis.com",
      enableApiCall project_id "cloudbuild.googleapis.com"]) env

/-- Step 2 of `run_setup`: persist `linking_billing`; attach billing only when
a truthy billing account was supplied; a non-200 aborts with the
billing-required error, leaving step `linking_billing` persisted. -/
def billingPhase (project_id password : String) (billing_account : Option String)
    (st1 : SetupState) (calls : List ApiCall) (env : RunEnv) : RunOutcome :=
  let st2 := { st1 with step := "linking_billing" }
  if isTruthy billing_account then
    let c := billingAttachCall project_id (billing_account.getD "")
    if env.linkBilling.status ≠ 200 then
      ⟨SetupResult.billingLinkFailed ("Failed to link billing: " ++ env.linkBilling.text),
        some st2, calls ++ [c]⟩
    else
      enablePhase project_id password st2 (calls ++ [c]) env
  else
    enablePhase project_id password st2 calls env

/-- `run_setup` (`POST /api/setup`): requires a token; resolves or generates
`project_id` and `password` (Python `or`, so empty strings are regenerated);
persists them with step `creating_project`; creates the project treating 409
as success; then runs the remaining steps. -/
def run_setup (tok : Option Token) (persisted : Option SetupState)
    (billing_account : Option String) (env : RunEnv) : RunOutcome :=
  match tok with
  | none => ⟨SetupResult.notAuthenticated, persisted, []⟩
  | some _ =>
    let state0 := get_setup_state persisted
    let project_id := pyOr state0.project_id (generate_project_name env.genProjectSuffix)
    let password := pyOr state0.password env.genPassword
    let st1 : SetupState :=
      { step := "creating_project", project_id := some project_id,
        password := some password, server_url := state0.server_url }
    if env.createProject.status = 200 ∨ env.createProject.status = 409 then
      billingPhase project_id password billing_account st1 [createProjectCall project_id] env
    else
      ⟨SetupResult.projectCreateFailed ("Failed to create project: " ++ env.createProject.text),
        some st1, [createProjectCall project_id]⟩

/-! ### Authorization flow -/

/-- Environment of the token exchange in `auth_callback`. -/
structure AuthEnv where
  tokenStatus : Nat
  tokenText : String
  tokenRecord : Token
deriving DecidableEq

/-- The outcome of `auth_callback`, mirroring its distinct returns. -/
inductive AuthResult where
  | denied (error : String)
  | missingCode
  | exchangeFailed (detail : String)
  | success
deriving DecidableEq

/-- Result of `auth_callback` plus the stores and session after the call. -/
structure AuthOutcome where
  result : AuthResult
  token : Option Token
  state : Option SetupState
  session : Option String
  calls : List ApiCall
deriving DecidableEq

/-- `auth_callback` (`GET /auth/callback`): reject a truthy `error`, then a
missing/empty `code`; otherwise exchange the code with the session's verifier
(read with `session.get`, never removed), and on a 200 save the token and set
the setup step to `authenticated` unconditionally. -/
def auth_callback (code error : Option String) (sess : Option String)
    (tok0 : Option Token) (st0 : Option SetupState) (env : AuthEnv) : AuthOutcome :=
  if isTruthy error then
    ⟨AuthResult.denied (error.getD ""), tok0, st0, sess, []⟩
  else if ¬ isTruthy code then
    ⟨AuthResult.missingCode, tok0, st0, sess, []⟩
  else
    let c := tokenExchangeCall (code.getD "") sess
    if env.tokenStatus ≠ 200 then
      ⟨AuthResult.exchangeFailed ("Token exchange failed: " ++ env.tokenText), tok0, st0, sess, [c]⟩
    else
      let st := get_setup_state st0
      ⟨AuthResult.success, some env.tokenRecord, some { st with step := "authenticated" }, sess, [c]⟩

/-- The outcome of `auth_start`: the PKCE pair, the authorization-URL query
parameters, and the session afterwards. -/
structure AuthStartOutcome where
  code_verifier : String
  code_challenge : String
  params : List (String × String)
  session : Option String
deriving DecidableEq

/-- `secrets.token_urlsafe` applied to the given random bytes:
padded base64url then `rstrip("=")`. -/
def token_urlsafe (randBytes : List Nat) : String :=
  String.mk (rstripChar '=' (b64EncPadded randBytes))

/-- `auth_start` (`GET /auth/start`): `randBytes` are the `os.urandom(64)`
bytes behind `secrets.token_urlsafe(64)`.  The challenge is the stripped
base64url encoding of the SHA-256 of the verifier's bytes (the verifier is
ASCII, so `.encode()` is `strBytes`). -/
def auth_start (randBytes : List Nat) (urlRoot ingressPath : String) : AuthStartOutcome :=
  let code_verifier := token_urlsafe randBytes
  let code_challenge := String.mk (rstripChar '=' (b64EncPadded (sha256 (strBytes code_verifier))))
  { code_verifier := code_verifier,
    code_challenge := code_challenge,
    params := [("client_id", GOOGLE_CLIENT_ID),
      ("redirect_uri", pyRstrip '/' urlRoot ++ ingressPath ++ "/auth/callback"),
      ("response_type", "code"),
      ("scope", SCOPES_joined),
      ("code_challenge", code_challenge),
      ("code_challenge_method", "S256"),
      ("access_type", "offline"),
      ("prompt", "consent")],
    session := some code_verifier }

/-! ### Status endpoint -/

/-- The JSON returned by `GET /api/status`. -/
structure StatusOut where
  authenticated : Bool
  step : String
  project_id : Option String
  server_url : Option String
  has_password : Bool
deriving DecidableEq

/-- `get_status`: presence flags for token and password, never the values. -/
def get_status (persisted : Option SetupState) (tok : Option Token) : StatusOut :=
  let state := get_setup_state persisted
  { authenticated := tok.isSome,
    step := state.step,
    project_id := state.project_id,
    server_url := state.server_url,
    has_password := state.password.isSome }

/-! ### The fixed step order -/

/-- Index of a step in the fixed total order of the specification;
strings outside the order map to 7. -/
def stepIdx (s : String) : Nat :=
  if s = "start" then 0
  else if s = "authenticated" then 1
  else if s = "creating_project" then 2
  else if s = "linking_billing" then 3
  else if s = "enabling_apis" then 4
  else if s = "deploying" then 5
  else if s = "complete" then 6
  else 7

/-- The step recorded in a possibly-absent persisted state. -/
def stepOf (o : Option SetupState) : String := (get_setup_state o).step

/-- Whether a request body is the billing attach body. -/
def isBillingBody : ReqBody → Bool
  | ReqBody.billingBody _ => true
  | _ => false

/-- Whether the call's service descriptor, if it carries one, equals `cfg`. -/
def serviceBodyIs (cfg : ServiceConfig) (c : ApiCall) : Bool :=
  match c.body with
  | ReqBody.serviceBody cfg2 => cfg2 == cfg
  | _ => true

/-- The resolved project id of a `run_setup` invocation. -/
def resolvedProjectId (st0 : Option SetupState) (env : RunEnv) : String :=
  pyOr (get_setup_state st0).project_id (generate_project_name env.genProjectSuffix)

/-- The resolved password of a `run_setup` invocation. -/
def resolvedPassword (st0 : Option SetupState) (env : RunEnv) : String :=
  pyOr (get_setup_state st0).password env.genPassword

/-- The server url the success return reports, given the url persisted before
the final GET. -/
def reportedUrl (url0 : Option String) (env : RunEnv) : String :=
  (if env.getService.status = 200 then some env.getService.url else url0).getD ""

/-! ### Concrete inputs used for witnesses and counterexamples -/

/-- A token used in concrete evaluations. -/
def cTok : Token := ⟨"access"⟩

/-- A publisher environment with no supervisor token (publish is skipped). -/
def cPubNone : PublisherEnv := ⟨none, false, 200⟩

/-- An environment in which every call succeeds. -/
def cEnvOk : RunEnv :=
  ⟨⟨200, "ok"⟩, ⟨200, "ok"⟩, ⟨200, "ok"⟩, ⟨200, "ok"⟩,
    ⟨200, "https://ha-tunnel-svc.a.run.app"⟩, "abc123", "pw123", cPubNone⟩

/-- Like `cEnvOk` but service creation conflicts and the final URL fetch fails. -/
def cEnvNoUrl : RunEnv :=
  { cEnvOk with createService := ⟨409, "already exists"⟩, getService := ⟨500, "boom"⟩ }

/-- Like `cEnvOk` but the publisher post raises a connection error. -/
def cEnvRaise : RunEnv :=
  { cEnvOk with publisher := ⟨some "sup-token", true, 200⟩ }

/-- Like `cEnvOk` but the publisher options post fails with a 500. -/
def cEnvPubFail : RunEnv :=
  { cEnvOk with publisher := ⟨some "sup-token", false, 500⟩ }

/-- Like `cEnvOk` but project creation fails with a server error. -/
def cEnvCreateFail : RunEnv := { cEnvOk with createProject := ⟨500, "boom"⟩ }

/-- Like `cEnvOk` but billing linking fails. -/
def cEnvBillingFail : RunEnv := { cEnvOk with linkBilling := ⟨403, "no billing"⟩ }

/-- A partially-complete stored state with identifiers already persisted. -/
def cStored : SetupState :=
  ⟨"creating_project", some "ha-tunnel-zzz", some "stored-pw", none⟩

/-- An authorization environment whose token exchange succeeds. -/
def cAuthOk : AuthEnv := ⟨200, "ok", ⟨"access"⟩⟩

/-- The setup store after a first successful authorization from nothing. -/
def cState1 : Option SetupState :=
  (auth_callback (some "c") none (some "verifier") none none cAuthOk).state

/-- The setup store after a subsequent fully successful `run_setup`. -/
def cState2 : Option SetupState := (run_setup (some cTok) cState1 none cEnvOk).state

/-- The setup store after authorizing again once setup completed. -/
def cState3 : Option SetupState :=
  (auth_callback (some "c") none (some "verifier") (some cTok) cState2 cAuthOk).state

/-! ### Lemmas about the base64url encoder -/

theorem dropEq_append (c : Char) (l1 l2 : List Char) :
    dropEq c (l1 ++ l2) = if dropEq c l1 = [] then dropEq c l2 else dropEq c l1 ++ l2 := by
  induction l1 with
  | nil => simp [dropEq]
  | cons a t ih =>
    by_cases h : a = c
    · simpa [dropEq, h] using ih
    · simp [dropEq, h]

theorem dropEq_of_forall_ne (c : Char) (l : List Char) (h : ∀ x ∈ l, x ≠ c) :
    dropEq c l = l := by
  cases l with
  | nil => rfl
  | cons a t => simp [dropEq, h a (by simp)]

theorem rstripChar_append_clean (c : Char) (l1 l2 : List Char) (h : ∀ x ∈ l1, x ≠ c) :
    rstripChar c (l1 ++ l2) = l1 ++ rstripChar c l2 := by
  unfold rstripChar
  rw [List.reverse_append, dropEq_append]
  by_cases h2 : dropEq c l2.reverse = []
  · rw [if_pos h2, h2, dropEq_of_forall_ne c l1.reverse (by simpa using h)]
    simp
  · rw [if_neg h2, List.reverse_append, List.reverse_reverse]

theorem getD_ne_of (l : List Char) (d c : Char) (hl : ∀ x ∈ l, x ≠ c) (hd : d ≠ c) (i : Nat) :
    l.getD i d ≠ c := by
  induction l generalizing i with
  | nil => simpa [List.getD] using hd
  | cons a t ih =>
    cases i with
    | zero => simpa using hl a (by simp)
    | succ n => simpa using ih (fun x hx => hl x (by simp [hx])) n

theorem b64Char_ne_pad (i : Nat) : b64Char i ≠ '=' :=
  getD_ne_of b64alphabet '?' '=' (by decide) (by decide) i

theorem pad_not_mem_b64EncNoPad (bs : List Nat) : '=' ∉ b64EncNoPad bs := by
  induction bs using b64EncNoPad.induct with
  | case1 => simp [b64EncNoPad]
  | case2 b1 =>
    simp [b64EncNoPad]
    exact ⟨fun h => b64Char_ne_pad _ h.symm, fun h => b64Char_ne_pad _ h.symm⟩
  | case3 b1 b2 =>
    simp [b64EncNoPad]
    exact ⟨fun h => b64Char_ne_pad _ h.symm, fun h => b64Char_ne_pad _ h.symm,
      fun h => b64Char_ne_pad _ h.symm⟩
  | case4 b1 b2 b3 rest ih =>
    simp [b64EncNoPad, ih]
    exact ⟨fun h => b64Char_ne_pad _ h.symm, fun h => b64Char_ne_pad _ h.symm,
      fun h => b64Char_ne_pad _ h.symm, fun h => b64Char_ne_pad _ h.symm⟩

theorem rstrip_b64EncPadded (bs : List Nat) :
    rstripChar '=' (b64EncPadded bs) = b64EncNoPad bs := by
  induction bs using b64EncPadded.induct with
  | case1 => rfl
  | case2 b1 =>
    simp [b64EncPadded, b64EncNoPad, rstripChar, dropEq, b64Char_ne_pad]
  | case3 b1 b2 =>
    simp [b64EncPadded, b64EncNoPad, rstripChar, dropEq, b64Char_ne_pad]
  | case4 b1 b2 b3 rest ih =>
    have hsplit : b64EncPadded (b1 :: b2 :: b3 :: rest) =
        [b64Char (b1 / 4), b64Char (b1 % 4 * 16 + b2 / 16),
          b64Char (b2 % 16 * 4 + b3 / 64), b64Char (b3 % 64)] ++ b64EncPadded rest := by
      simp [b64EncPadded]
    have hclean : ∀ x ∈ [b64Char (b1 / 4), b64Char (b1 % 4 * 16 + b2 / 16),
        b64Char (b2 % 16 * 4 + b3 / 64), b64Char (b3 % 64)], x ≠ '=' := by
      intro x hx
      rcases List.mem_cons.mp hx with h | hx <;>
        [skip; rcases List.mem_cons.mp hx with h | hx] <;>
        [skip; skip; rcases List.mem_cons.mp hx with h | hx] <;>
        [skip; skip; skip; rcases List.mem_cons.mp hx with h | hx]
      · exact h ▸ b64Char_ne_pad _
      · exact h ▸ b64Char_ne_pad _
      · exact h ▸ b64Char_ne_pad _
      · exact h ▸ b64Char_ne_pad _
      · simp at hx
    rw [hsplit, rstripChar_append_clean _ _ _ hclean, ih]
    simp [b64EncNoPad]

theorem b64Val_b64Char_fin : ∀ i : Fin 64, b64Val (b64Char i.val) = i.val := by decide

theorem b64Val_b64Char (v : Nat) (h : v < 64) : b64Val (b64Char v) = v :=
  b64Val_b64Char_fin ⟨v, h⟩

theorem b64Decode_b64EncNoPad (bs : List Nat) (hb : ∀ b ∈ bs, b < 256) :
    b64Decode (b64EncNoPad bs) = bs := by
  induction bs using b64EncNoPad.induct with
  | case1 => rfl
  | case2 b1 =>
    have h1 : b1 < 256 := hb b1 (by simp)
    simp only [b64EncNoPad, b64Decode]
    rw [b64Val_b64Char _ (by omega), b64Val_b64Char _ (by omega)]
    congr 1
    omega
  | case3 b1 b2 =>
    have h1 : b1 < 256 := hb b1 (by simp)
    have h2 : b2 < 256 := hb b2 (by simp)
    simp only [b64EncNoPad, b64Decode]
    rw [b64Val_b64Char _ (by omega), b64Val_b64Char _ (by omega), b64Val_b64Char _ (by omega)]
    congr 1
    · omega
    · congr 1
      omega
  | case4 b1 b2 b3 rest ih =>
    have h1 : b1 < 256 := hb b1 (by simp)
    have h2 : b2 < 256 := hb b2 (by simp)
    have h3 : b3 < 256 := hb b3 (by simp)
    simp only [b64EncNoPad, b64Decode]
    rw [b64Val_b64Char _ (by omega), b64Val_b64Char _ (by omega),
      b64Val_b64Char _ (by omega), b64Val_b64Char _ (by omega)]
    rw [ih (fun b hbm => hb b (by simp [hbm]))]
    congr 1
    · omega
    · congr 1
      · omega
      · congr 1
        omega

theorem b64EncNoPad_inj (bs1 bs2 : List Nat) (h1 : ∀ b ∈ bs1, b < 256)
    (h2 : ∀ b ∈ bs2, b < 256) (he : b64EncNoPad bs1 = b64EncNoPad bs2) : bs1 = bs2 := by
  have := congrArg b64Decode he
  rwa [b64Decode_b64EncNoPad bs1 h1, b64Decode_b64EncNoPad bs2 h2] at this

/-! ### Lemmas about value resolution and the run_setup phases -/

theorem pyOr_some_ne (s d : String) (h : s ≠ "") : pyOr (some s) d = s := by
  simp [pyOr, h]

theorem pyOr_ne (o : Option String) (d : String) (hd : d ≠ "") : pyOr o d ≠ "" := by
  unfold pyOr
  cases o with
  | none => exact hd
  | some s => by_cases h : s = "" <;> simp [h, hd]

theorem generate_project_name_ne (sfx : String) : generate_project_name sfx ≠ "" := by
  unfold generate_project_name
  intro h
  have h2 := congrArg String.data h
  rw [String.data_append] at h2
  simp at h2

theorem finishPhase_state (pid pw : String) (st4 : SetupState) (calls : List ApiCall)
    (env : RunEnv) :
    ∃ st', (finishPhase pid pw st4 calls env).state = some st' ∧
      st'.project_id = st4.project_id ∧ st'.password = st4.password ∧ st'.step = "complete" := by
  simp only [finishPhase]
  split <;> exact ⟨_, rfl, by split <;> simp, by split <;> simp, by simp⟩

theorem deployPhase_state (pid pw : String) (st3 : SetupState) (calls : List ApiCall)
    (env : RunEnv) :
    ∃ st', (deployPhase pid pw st3 calls env).state = some st' ∧
      st'.project_id = st3.project_id ∧ st'.password = st3.password ∧
      5 ≤ stepIdx st'.step := by
  simp only [deployPhase]
  split
  · obtain ⟨st', h1, h2, h3, h4⟩ := finishPhase_state pid pw _ _ env
    exact ⟨st', h1, by simpa using h2, by simpa using h3, by simp [h4, stepIdx]⟩
  · split
    · obtain ⟨st', h1, h2, h3, h4⟩ := finishPhase_state pid pw _ _ env
      exact ⟨st', h1, by simpa using h2, by simpa using h3, by simp [h4, stepIdx]⟩
    · exact ⟨_, rfl, by simp, by simp, by simp [stepIdx]⟩

theorem enablePhase_state (pid pw : String) (st2 : SetupState) (calls : List ApiCall)
    (env : RunEnv) :
    ∃ st', (enablePhase pid pw st2 calls env).state = some st' ∧
      st'.project_id = st2.project_id ∧ st'.password = st2.password ∧
      5 ≤ stepIdx st'.step := by
  simp only [enablePhase]
  obtain ⟨st', h1, h2, h3, h4⟩ := deployPhase_state pid pw _ _ env
  exact ⟨st', h1, by simpa using h2, by simpa using h3, h4⟩

theorem billingPhase_state (pid pw : String) (ba : Option String) (st1 : SetupState)
    (calls : List ApiCall) (env : RunEnv) :
    ∃ st', (billingPhase pid pw ba st1 calls env).state = some st' ∧
      st'.project_id = st1.project_id ∧ st'.password = st1.password ∧
      3 ≤ stepIdx st'.step := by
  simp only [billingPhase]
  split
  · split
    · exact ⟨_, rfl, by simp, by simp, by simp [stepIdx]⟩
    · obtain ⟨st', h1, h2, h3, h4⟩ := enablePhase_state pid pw _ _ env
      exact ⟨st', h1, by simpa using h2, by simpa using h3, by omega⟩
  · obtain ⟨st', h1, h2, h3, h4⟩ := enablePhase_state pid pw _ _ env
    exact ⟨st', h1, by simpa using h2, by simpa using h3, by omega⟩

theorem run_setup_state (tok : Token) (st0 : Option SetupState) (ba : Option String)
    (env : RunEnv) :
    ∃ st', (run_setup (some tok) st0 ba env).state = some st' ∧
      st'.project_id = some (resolvedProjectId st0 env) ∧
      st'.password = some (resolvedPassword st0 env) ∧
      2 ≤ stepIdx st'.step := by
  simp only [run_setup, resolvedProjectId, resolvedPassword]
  split
  · obtain ⟨st', h1, h2, h3, h4⟩ := billingPhase_state _ _ ba _ _ env
    exact ⟨st', h1, by simpa using h2, by simpa using h3, by omega⟩
  · exact ⟨_, rfl, by simp, by simp, by simp [stepIdx]⟩

theorem update_addon_config_ok (st : SetupState) (p : PublisherEnv)
    (h : p.raises = false ∨ isTruthy p.supervisorToken = false) :
    ∃ pc, update_addon_config st p = Except.ok pc := by
  unfold update_addon_config
  by_cases ht : isTruthy p.supervisorToken
  · rcases h with h | h
    · rw [if_neg (by simp [ht]), if_neg (by simp [h])]
      split
      · exact ⟨_, rfl⟩
      · exact ⟨_, rfl⟩
    · exact absurd ht (by simp [h])
  · rw [if_pos (by simpa using ht)]
    exact ⟨[], rfl⟩

theorem update_addon_config_raise (st : SetupState) (p : PublisherEnv)
    (h1 : p.raises = true) (h2 : isTruthy p.supervisorToken = true) :
    update_addon_config st p = Except.error "connection error" := by
  unfold update_addon_config
  rw [if_neg (by simp [h2]), if_pos (by simp [h1])]

theorem finishPhase_result_ok (pid pw : String) (st4 : SetupState) (calls : List ApiCall)
    (env : RunEnv)
    (h : env.publisher.raises = false ∨ isTruthy env.publisher.supervisorToken = false) :
    (finishPhase pid pw st4 calls env).result =
      SetupResult.success pid (reportedUrl st4.server_url env) pw := by
  simp only [finishPhase, reportedUrl]
  split
  · rename_i e heq
    exfalso
    obtain ⟨pc, hpc⟩ := update_addon_config_ok _ env.publisher h
    rw [heq] at hpc
    cases hpc
  · rename_i pc heq
    simp only [RunOutcome.result]
    split <;> simp

theorem finishPhase_result_raise (pid pw : String) (st4 : SetupState) (calls : List ApiCall)
    (env : RunEnv) (h1 : env.publisher.raises = true)
    (h2 : isTruthy env.publisher.supervisorToken = true) :
    (finishPhase pid pw st4 calls env).result = SetupResult.exceptionError "connection error" := by
  simp only [finishPhase]
  rw [update_addon_config_raise _ _ h1 h2]

theorem run_setup_reaches_finish (tok : Token) (st0 : Option SetupState) (ba : Option String)
    (env : RunEnv)
    (hc : env.createProject.status = 200 ∨ env.createProject.status = 409)
    (hb : isTruthy ba = true → env.linkBilling.status = 200)
    (hd : (env.createService.status = 200 ∨ env.createService.status = 201) ∨
      (env.updateService.status = 200 ∨ env.updateService.status = 201)) :
    ∃ calls, run_setup (some tok) st0 ba env =
      finishPhase (resolvedProjectId st0 env) (resolvedPassword st0 env)
        { step := "deploying", project_id := some (resolvedProjectId st0 env),
          password := some (resolvedPassword st0 env),
          server_url := (get_setup_state st0).server_url } calls env := by
  simp only [run_setup, billingPhase, enablePhase, deployPhase,
    resolvedProjectId, resolvedPassword]
  rw [if_pos hc]
  by_cases hba : isTruthy ba
  · rw [if_pos (by simpa using hba), if_neg (by simp [hb (by simpa using hba)])]
    by_cases hcs : env.createService.status = 200 ∨ env.createService.status = 201
    · rw [if_pos hcs]
      exact ⟨_, rfl⟩
    · rcases hd with hd | hd
      · exact absurd hd hcs
      · rw [if_neg hcs, if_pos hd]
        exact ⟨_, rfl⟩
  · rw [if_neg (by simpa using hba)]
    by_cases hcs : env.createService.status = 200 ∨ env.createService.status = 201
    · rw [if_pos hcs]
      exact ⟨_, rfl⟩
    · rcases hd with hd | hd
      · exact absurd hd hcs
      · rw [if_neg hcs, if_pos hd]
        exact ⟨_, rfl⟩

theorem finishPhase_success_eq (pid pw : String) (st4 : SetupState) (calls : List ApiCall)
    (env : RunEnv) (q u w : String) :
    (finishPhase pid pw st4 calls env).result = SetupResult.success q u w →
      q = pid ∧ w = pw ∧ u = reportedUrl st4.server_url env ∧
      stepOf (finishPhase pid pw st4 calls env).state = "complete" := by
  simp only [finishPhase, reportedUrl]
  split
  · intro h
    simp at h
  · intro h
    simp only [RunOutcome.result] at h
    rw [SetupResult.success.injEq] at h
    refine ⟨h.1.symm, h.2.2.symm, ?_, by simp [stepOf, get_setup_state]⟩
    rw [← h.2.1]
    split <;> simp

theorem deployPhase_success_eq (pid pw : String) (st3 : SetupState) (calls : List ApiCall)
    (env : RunEnv) (q u w : String) :
    (deployPhase pid pw st3 calls env).result = SetupResult.success q u w →
      q = pid ∧ w = pw ∧ u = reportedUrl st3.server_url env ∧
      stepOf (deployPhase pid pw st3 calls env).state = "complete" := by
  simp only [deployPhase]
  split
  · intro h
    have := finishPhase_success_eq pid pw _ _ env q u w h
    simpa using this
  · split
    · intro h
      have := finishPhase_success_eq pid pw _ _ env q u w h
      simpa using this
    · intro h
      simp at h

theorem enablePhase_success_eq (pid pw : String) (st2 : SetupState) (calls : List ApiCall)
    (env : RunEnv) (q u w : String) :
    (enablePhase pid pw st2 calls env).result = SetupResult.success q u w →
      q = pid ∧ w = pw ∧ u = reportedUrl st2.server_url env ∧
      stepOf (enablePhase pid pw st2 calls env).state = "complete" := by
  simp only [enablePhase]
  intro h
  have := deployPhase_success_eq pid pw _ _ env q u w h
  simpa using this

theorem billingPhase_success_eq (pid pw : String) (ba : Option String) (st1 : SetupState)
    (calls : List ApiCall) (env : RunEnv) (q u w : String) :
    (billingPhase pid pw ba st1 calls env).result = SetupResult.success q u w →
      q = pid ∧ w = pw ∧ u = reportedUrl st1.server_url env ∧
      stepOf (billingPhase pid pw ba st1 calls env).state = "complete" := by
  simp only [billingPhase]
  split
  · split
    · intro h
      simp at h
    · intro h
      have := enablePhase_success_eq pid pw _ _ env q u w h
      simpa using this
  · intro h
    have := enablePhase_success_eq pid pw _ _ env q u w h
    simpa using this

theorem run_setup_success_eq (tok : Token) (st0 : Option SetupState) (ba : Option String)
    (env : RunEnv) (q u w : String) :
    (run_setup (some tok) st0 ba env).result = SetupResult.success q u w →
      q = resolvedProjectId st0 env ∧ w = resolvedPassword st0 env ∧
      u = reportedUrl (get_setup_state st0).server_url env ∧
      stepOf (run_setup (some tok) st0 ba env).state = "complete" := by
  simp only [run_setup, resolvedProjectId, resolvedPassword]
  split
  · intro h
    have := billingPhase_success_eq _ _ ba _ _ env q u w h
    simpa using this
  · intro h
    simp at h

theorem update_addon_config_calls (st : SetupState) (p : PublisherEnv) (pc : List ApiCall)
    (h : update_addon_config st p = Except.ok pc) :
    pc.all (fun c => !isBillingBody c.body) = true := by
  unfold update_addon_config at h
  split at h
  · cases h
    rfl
  · split at h
    · cases h
    · split at h <;> cases h <;> simp [optionsCall, restartCall, isBillingBody]

theorem all_no_billing_of (calls extra : List ApiCall)
    (h : calls.all (fun c => !isBillingBody c.body) = true)
    (hextra : extra.all (fun c => !isBillingBody c.body) = true) :
    (calls ++ extra).all (fun c => !isBillingBody c.body) = true := by
  rw [List.all_append, h, hextra]
  rfl

theorem finishPhase_calls_no_billing (pid pw : String) (st4 : SetupState)
    (calls : List ApiCall) (env : RunEnv)
    (h : calls.all (fun c => !isBillingBody c.body) = true) :
    ((finishPhase pid pw st4 calls env).calls).all (fun c => !isBillingBody c.body) = true := by
  simp only [finishPhase]
  split
  · exact all_no_billing_of _ _ h (by simp [setIamCall, getServiceCall, isBillingBody])
  · rename_i pc heq
    have hpc := update_addon_config_calls _ _ pc heq
    exact all_no_billing_of _ _
      (all_no_billing_of _ _ h (by simp [setIamCall, getServiceCall, isBillingBody])) hpc

theorem deployPhase_calls_no_billing (pid pw : String) (st3 : SetupState)
    (calls : List ApiCall) (env : RunEnv)
    (h : calls.all (fun c => !isBillingBody c.body) = true) :
    ((deployPhase pid pw st3 calls env).calls).all (fun c => !isBillingBody c.body) = true := by
  simp only [deployPhase]
  split
  · exact finishPhase_calls_no_billing _ _ _ _ _
      (all_no_billing_of _ _ h (by simp [createServiceCall, isBillingBody]))
  · split
    · exact finishPhase_calls_no_billing _ _ _ _ _
        (all_no_billing_of _ _ h
          (by simp [createServiceCall, updateServiceCall, isBillingBody]))
    · exact all_no_billing_of _ _ h
        (by simp [createServiceCall, updateServiceCall, isBillingBody])

theorem enablePhase_calls_no_billing (pid pw : String) (st2 : SetupState)
    (calls : List ApiCall) (env : RunEnv)
    (h : calls.all (fun c => !isBillingBody c.body) = true) :
    ((enablePhase pid pw st2 calls env).calls).all (fun c => !isBillingBody c.body) = true := by
  simp only [enablePhase]
  exact deployPhase_calls_no_billing _ _ _ _ _
    (all_no_billing_of _ _ h (by simp [enableApiCall, isBillingBody]))

theorem billingPhase_calls_no_billing (pid pw : String) (ba : Option String)
    (st1 : SetupState) (calls : List ApiCall) (env : RunEnv) (hba : isTruthy ba = false)
    (h : calls.all (fun c => !isBillingBody c.body) = true) :
    ((billingPhase pid pw ba st1 calls env).calls).all
      (fun c => !isBillingBody c.body) = true := by
  simp only [billingPhase]
  rw [if_neg (by simp [hba])]
  exact enablePhase_calls_no_billing _ _ _ _ env h

theorem run_setup_calls_no_billing (tok : Token) (st0 : Option SetupState)
    (ba : Option String) (env : RunEnv) (hba : isTruthy ba = false) :
    ((run_setup (some tok) st0 ba env).calls).all (fun c => !isBillingBody c.body) = true := by
  simp only [run_setup]
  split
  · exact billingPhase_calls_no_billing _ _ _ _ _ env hba
      (by simp [createProjectCall, isBillingBody])
  · simp [createProjectCall, isBillingBody]

theorem all_serviceBodyIs_of (cfg : ServiceConfig) (l1 l2 : List ApiCall)
    (h1 : l1.all (serviceBodyIs cfg) = true) (h2 : l2.all (serviceBodyIs cfg) = true) :
    (l1 ++ l2).all (serviceBodyIs cfg) = true := by
  rw [List.all_append, h1, h2]
  rfl

theorem update_addon_config_calls_service (cfg : ServiceConfig) (st : SetupState)
    (p : PublisherEnv) (pc : List ApiCall) (h : update_addon_config st p = Except.ok pc) :
    pc.all (serviceBodyIs cfg) = true := by
  unfold update_addon_config at h
  split at h
  · cases h
    rfl
  · split at h
    · cases h
    · split at h <;> cases h <;> simp [optionsCall, restartCall, serviceBodyIs]

theorem finishPhase_calls_service (cfg : ServiceConfig) (pid pw : String) (st4 : SetupState)
    (calls : List ApiCall) (env : RunEnv) (h : calls.all (serviceBodyIs cfg) = true) :
    ((finishPhase pid pw st4 calls env).calls).all (serviceBodyIs cfg) = true := by
  simp only [finishPhase]
  split
  · exact all_serviceBodyIs_of _ _ _ h (by simp [setIamCall, getServiceCall, serviceBodyIs])
  · rename_i pc heq
    have hpc := update_addon_config_calls_service cfg _ _ pc heq
    exact all_serviceBodyIs_of _ _ _
      (all_serviceBodyIs_of _ _ _ h (by simp [setIamCall, getServiceCall, serviceBodyIs])) hpc

theorem deployPhase_calls_service (pid pw : String) (st3 : SetupState)
    (calls : List ApiCall) (env : RunEnv)
    (h : calls.all (serviceBodyIs (service_config pw)) = true) :
    ((deployPhase pid pw st3 calls env).calls).all (serviceBodyIs (service_config pw)) = true := by
  simp only [deployPhase]
  split
  · exact finishPhase_calls_service _ _ _ _ _ _
      (all_serviceBodyIs_of _ _ _ h (by simp [createServiceCall, serviceBodyIs]))
  · split
    · exact finishPhase_calls_service _ _ _ _ _ _
        (all_serviceBodyIs_of _ _ _ h
          (by simp [createServiceCall, updateServiceCall, serviceBodyIs]))
    · exact all_serviceBodyIs_of _ _ _ h
        (by simp [createServiceCall, updateServiceCall, serviceBodyIs])

theorem enablePhase_calls_service (pid pw : String) (st2 : SetupState)
    (calls : List ApiCall) (env : RunEnv)
    (h : calls.all (serviceBodyIs (service_config pw)) = true) :
    ((enablePhase pid pw st2 calls env).calls).all (serviceBodyIs (service_config pw)) = true := by
  simp only [enablePhase]
  exact deployPhase_calls_service _ _ _ _ env
    (all_serviceBodyIs_of _ _ _ h (by simp [enableApiCall, serviceBodyIs]))

theorem billingPhase_calls_service (pid pw : String) (ba : Option String) (st1 : SetupState)
    (calls : List ApiCall) (env : RunEnv)
    (h : calls.all (serviceBodyIs (service_config pw)) = true) :
    ((billingPhase pid pw ba st1 calls env).calls).all
      (serviceBodyIs (service_config pw)) = true := by
  simp only [billingPhase]
  split
  · split
    · exact all_serviceBodyIs_of _ _ _ h (by simp [billingAttachCall, serviceBodyIs])
    · exact enablePhase_calls_service _ _ _ _ env
        (all_serviceBodyIs_of _ _ _ h (by simp [billingAttachCall, serviceBodyIs]))
  · exact enablePhase_calls_service _ _ _ _ env h

theorem run_setup_calls_service (tok : Token) (st0 : Option SetupState)
    (ba : Option String) (env : RunEnv) :
    ((run_setup (some tok) st0 ba env).calls).all
      (serviceBodyIs (service_config (resolvedPassword st0 env))) = true := by
  simp only [run_setup, resolvedPassword]
  split
  · exact billingPhase_calls_service _ _ ba _ _ env
      (by simp [createProjectCall, serviceBodyIs])
  · simp [createProjectCall, serviceBodyIs]

theorem finishPhase_calls_mem (pid pw : String) (st4 : SetupState) (calls : List ApiCall)
    (env : RunEnv) (c : ApiCall) (h : c ∈ calls) :
    c ∈ (finishPhase pid pw st4 calls env).calls := by
  simp only [finishPhase]
  split <;> simp [h]

theorem deployPhase_update_mem (pid pw : String) (st3 : SetupState) (calls : List ApiCall)
    (env : RunEnv)
    (hcs : ¬(env.createService.status = 200 ∨ env.createService.status = 201)) :
    updateServiceCall pid (service_config pw) ∈ (deployPhase pid pw st3 calls env).calls ∧
    createServiceCall pid (service_config pw) ∈ (deployPhase pid pw st3 calls env).calls := by
  simp only [deployPhase]
  rw [if_neg hcs]
  split
  · exact ⟨finishPhase_calls_mem _ _ _ _ _ _ (by simp),
      finishPhase_calls_mem _ _ _ _ _ _ (by simp)⟩
  · exact ⟨by simp, by simp⟩

theorem run_setup_update_mem (tok : Token) (st0 : Option SetupState) (ba : Option String)
    (env : RunEnv)
    (hcreate : env.createProject.status = 200 ∨ env.createProject.status = 409)
    (hbill : isTruthy ba = true → env.linkBilling.status = 200)
    (hcs : ¬(env.createService.status = 200 ∨ env.createService.status = 201)) :
    updateServiceCall (resolvedProjectId st0 env)
        (service_config (resolvedPassword st0 env))
      ∈ (run_setup (some tok) st0 ba env).calls ∧
    createServiceCall (resolvedProjectId st0 env)
        (service_config (resolvedPassword st0 env))
      ∈ (run_setup (some tok) st0 ba env).calls := by
  simp only [run_setup, billingPhase, enablePhase, resolvedProjectId, resolvedPassword]
  rw [if_pos hcreate]
  by_cases hba : isTruthy ba
  · rw [if_pos (by simpa using hba), if_neg (by simp [hbill (by simpa using hba)])]
    exact deployPhase_update_mem _ _ _ _ env hcs
  · rw [if_neg (by simpa using hba)]
    exact deployPhase_update_mem _ _ _ _ env hcs

/-! ### Claim theorems -/

/-- Claim C5 (confirmed): `auth_callback` fails with the denied error whenever
an error parameter is present (present meaning carrying a non-empty value, as
the handler tests Python truthiness), regardless of whether a code is also
present; it fails with the missing-code error whenever no error is present and
no code is supplied; and in both failure cases it issues no token-exchange
call and leaves the persisted token record unchanged. -/
theorem C5_callback_failures (code error : Option String) (sess : Option String)
    (tok0 : Option Token) (st0 : Option SetupState) (env : AuthEnv) :
    (∀ e, error = some e → e ≠ "" →
      (auth_callback code error sess tok0 st0 env).result = AuthResult.denied e ∧
      (auth_callback code error sess tok0 st0 env).calls = [] ∧
      (auth_callback code error sess tok0 st0 env).token = tok0) ∧
    ((error = none ∨ error = some "") → (code = none ∨ code = some "") →
      (auth_callback code error sess tok0 st0 env).result = AuthResult.missingCode ∧
      (auth_callback code error sess tok0 st0 env).calls = [] ∧
      (auth_callback code error sess tok0 st0 env).token = tok0) := by
  constructor
  · intro e he hne
    subst he
    simp [auth_callback, isTruthy, hne]
  · intro herr hcode
    have h1 : isTruthy error = false := by
      rcases herr with h | h <;> simp [h, isTruthy]
    have h2 : isTruthy code = false := by
      rcases hcode with h | h <;> simp [h, isTruthy]
    simp [auth_callback, h1, h2]

/-- Witness for C5 at concrete inputs: a denied callback and an empty one. -/
theorem C5_callback_failures_witness :
    (auth_callback (some "c") (some "access_denied") none none none cAuthOk).result
        = AuthResult.denied "access_denied" ∧
    (auth_callback none none none none none cAuthOk).result = AuthResult.missingCode :=
  ⟨((C5_callback_failures (some "c") (some "access_denied") none none none cAuthOk).1
      "access_denied" rfl (by decide)).1,
    ((C5_callback_failures none none none none none cAuthOk).2
      (Or.inl rfl) (Or.inl rfl)).1⟩

/-- Claim C9 (counterexample): a successful `auth_callback` run after which
the session still holds the stored code verifier, contradicting the claim
that the verifier is no longer present after the call returns. -/
theorem C9_counterexample :
    (auth_callback (some "c") none (some "secret-verifier") none none cAuthOk).result
        = AuthResult.success ∧
    (auth_callback (some "c") none (some "secret-verifier") none none cAuthOk).session
        = some "secret-verifier" := by decide

/-- Claim C9 (amended): for every invocation of `auth_callback`, whether it
succeeds or fails for any reason, the session's stored code verifier is left
exactly as it was: the handler reads it with `session.get` and never removes
it, so the exchange context is not destroyed. -/
theorem C9_session_untouched (code error sess : Option String) (tok0 : Option Token)
    (st0 : Option SetupState) (env : AuthEnv) :
    (auth_callback code error sess tok0 st0 env).session = sess := by
  simp only [auth_callback]
  split
  · rfl
  · split
    · rfl
    · split <;> rfl

/-- Claim C10 (confirmed): `get_status` is identical on two states that differ
only in the password's value; it reports authenticated=false and step "start"
when no token and no setup state are persisted; and after a successful run it
reports step "complete" with has_password=true (and authenticated=true), the
password itself appearing only as the presence flag. -/
theorem C10_status_no_leak :
    (∀ (st : SetupState) (p1 p2 : String) (tok : Option Token),
      get_status (some { st with password := some p1 }) tok
        = get_status (some { st with password := some p2 }) tok) ∧
    get_status none none =
      { authenticated := false, step := "start", project_id := none,
        server_url := none, has_password := false } ∧
    (∀ (tok : Token) (st0 : Option SetupState) (ba : Option String) (env : RunEnv)
      (q u w : String),
      (run_setup (some tok) st0 ba env).result = SetupResult.success q u w →
      (get_status (run_setup (some tok) st0 ba env).state (some tok)).step = "complete" ∧
      (get_status (run_setup (some tok) st0 ba env).state (some tok)).has_password = true ∧
      (get_status (run_setup (some tok) st0 ba env).state (some tok)).authenticated = true) := by
  refine ⟨?_, ?_, ?_⟩
  · intro st p1 p2 tok
    simp [get_status, get_setup_state]
  · rfl
  · intro tok st0 ba env q u w h
    obtain ⟨-, -, -, h4⟩ := run_setup_success_eq tok st0 ba env q u w h
    obtain ⟨st', hs1, hs2, hs3, -⟩ := run_setup_state tok st0 ba env
    rw [hs1] at h4 ⊢
    have hstep : st'.step = "complete" := by simpa [stepOf, get_setup_state] using h4
    refine ⟨?_, ?_, ?_⟩ <;> simp [get_status, get_setup_state, hstep, hs3]

/-- Witness for C10 after a concrete fully successful run. -/
theorem C10_status_no_leak_witness :
    (get_status (run_setup (some cTok) none none cEnvOk).state (some cTok)).step = "complete" ∧
    (get_status (run_setup (some cTok) none none cEnvOk).state (some cTok)).has_password = true :=
  ⟨(C10_status_no_leak.2.2 cTok none none cEnvOk "ha-tunnel-abc123"
      "https://ha-tunnel-svc.a.run.app" "pw123" (by decide)).1,
    (C10_status_no_leak.2.2 cTok none none cEnvOk "ha-tunnel-abc123"
      "https://ha-tunnel-svc.a.run.app" "pw123" (by decide)).2.1⟩

/-- Claim C3 (confirmed): in the create-project step, a 409 conflict response
is treated exactly like a 200: the whole run outcome is identical; every
response outside of 200 and 409 aborts the run with the project-create error
carrying the response text, and the persisted step stays `creating_project`. -/
theorem C3_conflict_is_success :
    (∀ (tok : Token) (st0 : Option SetupState) (ba : Option String) (env : RunEnv)
      (r1 r2 : HttpResp),
      r1.status = 200 ∨ r1.status = 409 → r2.status = 200 ∨ r2.status = 409 →
      run_setup (some tok) st0 ba { env with createProject := r1 }
        = run_setup (some tok) st0 ba { env with createProject := r2 }) ∧
    (∀ (tok : Token) (st0 : Option SetupState) (ba : Option String) (env : RunEnv),
      ¬(env.createProject.status = 200 ∨ env.createProject.status = 409) →
      (run_setup (some tok) st0 ba env).result
          = SetupResult.projectCreateFailed
              ("Failed to create project: " ++ env.createProject.text) ∧
      stepOf (run_setup (some tok) st0 ba env).state = "creating_project") := by
  constructor
  · intro tok st0 ba env r1 r2 h1 h2
    simp only [run_setup]
    rw [if_pos (by simpa using h1), if_pos (by simpa using h2)]
    simp only [billingPhase, enablePhase, deployPhase, finishPhase, update_addon_config]
  · intro tok st0 ba env h
    simp only [run_setup]
    rw [if_neg h]
    exact ⟨rfl, by simp [stepOf, get_setup_state]⟩

/-- Claim C1 (counterexample): a reachable sequence on which the persisted
step moves backward: a successful authorization, then a fully successful run
(step `complete`), then authorizing again resets the step to `authenticated`
— so `auth_callback` advanced the step to `authenticated` from a state whose
step was not `start`, and the step order decreased. -/
theorem C1_counterexample :
    stepOf cState2 = "complete" ∧ stepOf cState3 = "authenticated" ∧
    stepIdx (stepOf cState3) < stepIdx (stepOf cState2) := by decide

/-- Claim C1 (amended): `auth_callback` sets the step to `authenticated`
unconditionally on a successful exchange (not only when the step was `start`),
and `run_setup` rewinds the step to `creating_project` before re-running, so
the forward-only ordering holds exactly for operations starting no later than
the step they establish: authorization never moves the step backward from
states at or before `authenticated`, and `run_setup` never moves it backward
from states at or before `creating_project`. -/
theorem C1_step_monotonicity :
    (∀ (code error sess : Option String) (tok0 : Option Token) (st0 : Option SetupState)
      (env : AuthEnv), stepIdx (stepOf st0) ≤ 1 →
      stepIdx (stepOf st0)
        ≤ stepIdx (stepOf (auth_callback code error sess tok0 st0 env).state)) ∧
    (∀ (code error sess : Option String) (tok0 : Option Token) (st0 : Option SetupState)
      (env : AuthEnv), isTruthy error = false → isTruthy code = true → env.tokenStatus = 200 →
      stepOf (auth_callback code error sess tok0 st0 env).state = "authenticated") ∧
    (∀ (tok : Option Token) (st0 : Option SetupState) (ba : Option String) (env : RunEnv),
      stepIdx (stepOf st0) ≤ 2 →
      stepIdx (stepOf st0) ≤ stepIdx (stepOf (run_setup tok st0 ba env).state)) := by
  refine ⟨?_, ?_, ?_⟩
  · intro code error sess tok0 st0 env h
    simp only [auth_callback]
    split
    · exact le_refl _
    · split
      · exact le_refl _
      · split
        · exact le_refl _
        · simpa [stepOf, get_setup_state, show stepIdx "authenticated" = 1 from rfl] using h
  · intro code error sess tok0 st0 env h1 h2 h3
    simp only [auth_callback]
    rw [if_neg (by simp [h1]), if_neg (by simp [h2]), if_neg (by simp [h3])]
    simp [stepOf, get_setup_state]
  · intro tok st0 ba env h
    cases tok with
    | none => exact le_refl _
    | some t =>
      obtain ⟨st', hs1, -, -, hs4⟩ := run_setup_state t st0 ba env
      rw [hs1]
      have hst : stepOf (some st') = st'.step := by simp [stepOf, get_setup_state]
      rw [hst]
      omega

/-- Witness for C1 at concrete inputs: authorization from nothing, and a run
from the authenticated state. -/
theorem C1_step_monotonicity_witness :
    stepIdx (stepOf (none : Option SetupState)) ≤
      stepIdx (stepOf (auth_callback (some "c") none (some "v") none none cAuthOk).state) ∧
    stepOf (auth_callback (some "c") none (some "v") none none cAuthOk).state
        = "authenticated" ∧
    stepIdx (stepOf cState1)
        ≤ stepIdx (stepOf (run_setup (some cTok) cState1 none cEnvOk).state) :=
  ⟨C1_step_monotonicity.1 (some "c") none (some "v") none none cAuthOk (by decide),
    C1_step_monotonicity.2.1 (some "c") none (some "v") none none cAuthOk
      (by decide) (by decide) (by decide),
    C1_step_monotonicity.2.2 (some cTok) cState1 none cEnvOk (by decide)⟩

/-- Claim C2 (confirmed): `run_setup` reuses a persisted non-empty
`project_id` (resp. `password`) and never generates a new one: the persisted
value survives the run and any success reports exactly it; two successive
invocations that both succeed report the same project id and password; and
when both identifiers are persisted non-empty the whole outcome is
independent of the generator values. -/
theorem C2_identifier_reuse :
    (∀ (tok : Token) (st0 : Option SetupState) (ba : Option String) (env : RunEnv)
      (s : SetupState) (p : String), st0 = some s → s.project_id = some p → p ≠ "" →
      ((run_setup (some tok) st0 ba env).state.bind (fun st => st.project_id) = some p ∧
        ∀ q u w, (run_setup (some tok) st0 ba env).result = SetupResult.success q u w →
          q = p)) ∧
    (∀ (tok : Token) (st0 : Option SetupState) (ba : Option String) (env : RunEnv)
      (s : SetupState) (pw : String), st0 = some s → s.password = some pw → pw ≠ "" →
      ((run_setup (some tok) st0 ba env).state.bind (fun st => st.password) = some pw ∧
        ∀ q u w, (run_setup (some tok) st0 ba env).result = SetupResult.success q u w →
          w = pw)) ∧
    (∀ (tok : Token) (st0 : Option SetupState) (ba1 ba2 : Option String)
      (env1 env2 : RunEnv) (q1 u1 w1 q2 u2 w2 : String), env1.genPassword ≠ "" →
      (run_setup (some tok) st0 ba1 env1).result = SetupResult.success q1 u1 w1 →
      (run_setup (some tok) (run_setup (some tok) st0 ba1 env1).state ba2 env2).result
          = SetupResult.success q2 u2 w2 →
      q2 = q1 ∧ w2 = w1) ∧
    (∀ (tok : Token) (s : SetupState) (ba : Option String) (env : RunEnv)
      (p pw g1 g2 sfx1 sfx2 : String), s.project_id = some p → p ≠ "" →
      s.password = some pw → pw ≠ "" →
      run_setup (some tok) (some s) ba { env with genProjectSuffix := sfx1, genPassword := g1 }
        = run_setup (some tok) (some s) ba
            { env with genProjectSuffix := sfx2, genPassword := g2 }) := by
  refine ⟨?_, ?_, ?_, ?_⟩
  · intro tok st0 ba env s p hst hp hne
    subst hst
    have hres : resolvedProjectId (some s) env = p := by
      unfold resolvedProjectId
      rw [show get_setup_state (some s) = s from rfl, hp, pyOr_some_ne _ _ hne]
    obtain ⟨st', hs1, hs2, -, -⟩ := run_setup_state tok (some s) ba env
    refine ⟨?_, ?_⟩
    · rw [hs1, Option.some_bind, hs2, hres]
    · intro q u w h
      have := (run_setup_success_eq tok (some s) ba env q u w h).1
      rw [this, hres]
  · intro tok st0 ba env s pw hst hp hne
    subst hst
    have hres : resolvedPassword (some s) env = pw := by
      unfold resolvedPassword
      rw [show get_setup_state (some s) = s from rfl, hp, pyOr_some_ne _ _ hne]
    obtain ⟨st', hs1, -, hs3, -⟩ := run_setup_state tok (some s) ba env
    refine ⟨?_, ?_⟩
    · rw [hs1, Option.some_bind, hs3, hres]
    · intro q u w h
      have := (run_setup_success_eq tok (some s) ba env q u w h).2.1
      rw [this, hres]
  · intro tok st0 ba1 ba2 env1 env2 q1 u1 w1 q2 u2 w2 hpw h1 h2
    obtain ⟨e1, e2, -, -⟩ := run_setup_success_eq tok st0 ba1 env1 q1 u1 w1 h1
    obtain ⟨st', hs1, hs2, hs3, -⟩ := run_setup_state tok st0 ba1 env1
    have hq1 : q1 ≠ "" := by
      rw [e1]
      exact pyOr_ne _ _ (generate_project_name_ne _)
    have hw1 : w1 ≠ "" := by
      rw [e2]
      exact pyOr_ne _ _ hpw
    obtain ⟨f1, f2, -, -⟩ :=
      run_setup_success_eq tok ((run_setup (some tok) st0 ba1 env1).state) ba2 env2 q2 u2 w2 h2
    rw [hs1] at f1 f2
    have hq2 : resolvedProjectId (some st') env2 = q1 := by
      unfold resolvedProjectId
      rw [show get_setup_state (some st') = st' from rfl, hs2, ← e1, pyOr_some_ne _ _ hq1]
    have hw2 : resolvedPassword (some st') env2 = w1 := by
      unfold resolvedPassword
      rw [show get_setup_state (some st') = st' from rfl, hs3, ← e2, pyOr_some_ne _ _ hw1]
    exact ⟨f1.trans hq2, f2.trans hw2⟩
  · intro tok s ba env p pw g1 g2 sfx1 sfx2 hp hpne hw hwne
    simp only [run_setup]
    rw [show get_setup_state (some s) = s from rfl, hp, hw]
    simp only [pyOr, if_neg hpne, if_neg hwne]
    simp only [billingPhase, enablePhase, deployPhase, finishPhase, update_addon_config]

/-- Witness for C2: a stored state whose identifiers survive a successful run,
and two successive successful runs agreeing on both identifiers. -/
theorem C2_identifier_reuse_witness :
    (run_setup (some cTok) (some cStored) none cEnvOk).state.bind
        (fun st => st.project_id) = some "ha-tunnel-zzz" ∧
    ("ha-tunnel-abc123" : String) = "ha-tunnel-abc123" ∧ ("pw123" : String) = "pw123" :=
  ⟨((C2_identifier_reuse.1 cTok (some cStored) none cEnvOk cStored "ha-tunnel-zzz"
      rfl (by decide) (by decide))).1,
    C2_identifier_reuse.2.2.1 cTok none none none cEnvOk cEnvNoUrl
      "ha-tunnel-abc123" "https://ha-tunnel-svc.a.run.app" "pw123"
      "ha-tunnel-abc123" "https://ha-tunnel-svc.a.run.app" "pw123"
      (by decide) (by decide) (by decide)⟩

/-- Claim C6 (confirmed): the billing attach call is issued only when a
(truthy) billing account id was supplied; when one was supplied and the
response is not 200, the run aborts with the billing-link failure — the only
result kind whose response carries the `billing_required` flag — and the
persisted step remains `linking_billing`. -/
theorem C6_billing (tok : Token) (st0 : Option SetupState) (ba : Option String)
    (env : RunEnv) :
    (isTruthy ba = false →
      ∀ c ∈ (run_setup (some tok) st0 ba env).calls, isBillingBody c.body = false) ∧
    (isTruthy ba = true → env.linkBilling.status ≠ 200 →
      (env.createProject.status = 200 ∨ env.createProject.status = 409) →
      (run_setup (some tok) st0 ba env).result
          = SetupResult.billingLinkFailed
              ("Failed to link billing: " ++ env.linkBilling.text) ∧
      stepOf (run_setup (some tok) st0 ba env).state = "linking_billing") ∧
    (∀ r : SetupResult,
      billing_required_flag r = true ↔ ∃ d, r = SetupResult.billingLinkFailed d) := by
  refine ⟨?_, ?_, ?_⟩
  · intro hba
    have hall := run_setup_calls_no_billing tok st0 ba env hba
    intro c hc
    have := List.all_eq_true.mp hall c hc
    simpa using this
  · intro hba hbill hc
    simp only [run_setup, billingPhase]
    rw [if_pos hc, if_pos (by simpa using hba), if_pos hbill]
    exact ⟨rfl, by simp [stepOf, get_setup_state]⟩
  · intro r
    cases r <;> simp [billing_required_flag]

/-- Witness for C6: a concrete billing failure with a supplied account. -/
theorem C6_billing_witness :
    (run_setup (some cTok) none (some "billingAccounts/ABC123") cEnvBillingFail).result
        = SetupResult.billingLinkFailed
            ("Failed to link billing: " ++ cEnvBillingFail.linkBilling.text) ∧
    stepOf (run_setup (some cTok) none (some "billingAccounts/ABC123") cEnvBillingFail).state
        = "linking_billing" :=
  (C6_billing cTok none (some "billingAccounts/ABC123") cEnvBillingFail).2.1
    (by decide) (by decide) (by decide)

/-- Witness for C3: a 409 run equal to a 200 run, and a concrete 500 abort. -/
theorem C3_conflict_is_success_witness :
    run_setup (some cTok) none none { cEnvOk with createProject := ⟨409, "already exists"⟩ }
        = run_setup (some cTok) none none { cEnvOk with createProject := ⟨200, "ok"⟩ } ∧
    (run_setup (some cTok) none none cEnvCreateFail).result
        = SetupResult.projectCreateFailed
            ("Failed to create project: " ++ cEnvCreateFail.createProject.text) ∧
    stepOf (run_setup (some cTok) none none cEnvCreateFail).state = "creating_project" :=
  ⟨C3_conflict_is_success.1 cTok none none cEnvOk ⟨409, "already exists"⟩ ⟨200, "ok"⟩
      (by decide) (by decide),
    (C3_conflict_is_success.2 cTok none none cEnvCreateFail (by decide)).1,
    (C3_conflict_is_success.2 cTok none none cEnvCreateFail (by decide)).2⟩

/-- Claim C7 (counterexample): a run in which service creation fails with a
conflict, the update call succeeds, but the final URL fetch fails: the run
succeeds while reporting an empty `server_url`, contradicting the claim that
every such success carries a non-empty `server_url`. -/
theorem C7_counterexample :
    (run_setup (some cTok) none none cEnvNoUrl).result
        = SetupResult.success "ha-tunnel-abc123" "" "pw123" ∧
    updateServiceCall "ha-tunnel-abc123" (service_config "pw123")
        ∈ (run_setup (some cTok) none none cEnvNoUrl).calls := by decide

/-- Claim C7 (amended): if the service-create call fails (in particular when
the service already exists), an update call is issued with a service
descriptor identical to the one used for creation — all service descriptors
sent during one run coincide — and whenever the run then succeeds the
persisted step is `complete` and the reported `server_url` is the fetched URL
whenever the final service GET returned 200 (so it is non-empty whenever that
URL is); when the GET fails the run still succeeds with the previously stored,
possibly empty, URL. -/
theorem C7_deploy_fallback (tok : Token) (st0 : Option SetupState) (ba : Option String)
    (env : RunEnv) :
    (∀ c1 ∈ (run_setup (some tok) st0 ba env).calls,
      ∀ c2 ∈ (run_setup (some tok) st0 ba env).calls,
      ∀ cfg1 cfg2, c1.body = ReqBody.serviceBody cfg1 → c2.body = ReqBody.serviceBody cfg2 →
        cfg1 = cfg2) ∧
    ((env.createProject.status = 200 ∨ env.createProject.status = 409) →
      (isTruthy ba = true → env.linkBilling.status = 200) →
      ¬(env.createService.status = 200 ∨ env.createService.status = 201) →
      updateServiceCall (resolvedProjectId st0 env)
          (service_config (resolvedPassword st0 env))
        ∈ (run_setup (some tok) st0 ba env).calls ∧
      createServiceCall (resolvedProjectId st0 env)
          (service_config (resolvedPassword st0 env))
        ∈ (run_setup (some tok) st0 ba env).calls) ∧
    (∀ q u w, (run_setup (some tok) st0 ba env).result = SetupResult.success q u w →
      stepOf (run_setup (some tok) st0 ba env).state = "complete" ∧
      (env.getService.status = 200 → u = env.getService.url)) := by
  refine ⟨?_, ?_, ?_⟩
  · intro c1 h1 c2 h2 cfg1 cfg2 hb1 hb2
    have ha1 := List.all_eq_true.mp (run_setup_calls_service tok st0 ba env) c1 h1
    have ha2 := List.all_eq_true.mp (run_setup_calls_service tok st0 ba env) c2 h2
    simp only [serviceBodyIs, hb1] at ha1
    simp only [serviceBodyIs, hb2] at ha2
    have e1 : cfg1 = service_config (resolvedPassword st0 env) := by simpa using ha1
    have e2 : cfg2 = service_config (resolvedPassword st0 env) := by simpa using ha2
    exact e1.trans e2.symm
  · intro hcreate hbill hcs
    exact run_setup_update_mem tok st0 ba env hcreate hbill hcs
  · intro q u w h
    obtain ⟨-, -, hu, hstep⟩ := run_setup_success_eq tok st0 ba env q u w h
    refine ⟨hstep, ?_⟩
    intro hget
    rw [hu]
    simp [reportedUrl, hget]

/-- Witness for C7: a concrete conflicted deploy that falls back to the
update call, and a concrete successful run ending at step complete. -/
theorem C7_deploy_fallback_witness :
    updateServiceCall (resolvedProjectId none cEnvNoUrl)
        (service_config (resolvedPassword none cEnvNoUrl))
      ∈ (run_setup (some cTok) none none cEnvNoUrl).calls ∧
    stepOf (run_setup (some cTok) none none cEnvOk).state = "complete" :=
  ⟨((C7_deploy_fallback cTok none none cEnvNoUrl).2.1
      (by decide) (by decide) (by decide)).1,
    ((C7_deploy_fallback cTok none none cEnvOk).2.2 "ha-tunnel-abc123"
      "https://ha-tunnel-svc.a.run.app" "pw123" (by decide)).1⟩

/-- Claim C8 (counterexample): a run that persists step `complete` and then
hits a connection error raised by the publisher call: the caller receives an
error response instead of the success payload, although the persisted step
remains complete — the raised publisher failure does change the result. -/
theorem C8_counterexample :
    (run_setup (some cTok) none none cEnvRaise).result
        = SetupResult.exceptionError "connection error" ∧
    stepOf (run_setup (some cTok) none none cEnvRaise).state = "complete" := by decide

/-- Claim C8 (amended): once step `complete` is persisted, any publisher
failure that is a non-success HTTP response (or an absent supervisor token)
leaves the success result unchanged — the reported payload does not depend on
the publisher at all — and the step stays `complete`; but an exception raised
by the publisher call turns the result into an error response, while the
persisted step still remains `complete`. -/
theorem C8_publisher_best_effort (tok : Token) (st0 : Option SetupState)
    (ba : Option String) (env : RunEnv)
    (hcreate : env.createProject.status = 200 ∨ env.createProject.status = 409)
    (hbill : isTruthy ba = true → env.linkBilling.status = 200)
    (hdeploy : (env.createService.status = 200 ∨ env.createService.status = 201) ∨
      (env.updateService.status = 200 ∨ env.updateService.status = 201)) :
    ((env.publisher.raises = false ∨ isTruthy env.publisher.supervisorToken = false) →
      (run_setup (some tok) st0 ba env).result
          = SetupResult.success (resolvedProjectId st0 env)
              (reportedUrl (get_setup_state st0).server_url env)
              (resolvedPassword st0 env)) ∧
    (env.publisher.raises = true → isTruthy env.publisher.supervisorToken = true →
      (run_setup (some tok) st0 ba env).result
          = SetupResult.exceptionError "connection error") ∧
    stepOf (run_setup (some tok) st0 ba env).state = "complete" := by
  obtain ⟨calls, hre⟩ := run_setup_reaches_finish tok st0 ba env hcreate hbill hdeploy
  rw [hre]
  refine ⟨?_, ?_, ?_⟩
  · intro h
    have := finishPhase_result_ok (resolvedProjectId st0 env) (resolvedPassword st0 env)
      { step := "deploying", project_id := some (resolvedProjectId st0 env),
        password := some (resolvedPassword st0 env),
        server_url := (get_setup_state st0).server_url } calls env h
    simpa using this
  · intro h1 h2
    exact finishPhase_result_raise _ _ _ calls env h1 h2
  · obtain ⟨st', h1, -, -, h4⟩ := finishPhase_state _ _ _ calls env
    rw [h1]
    simpa [stepOf, get_setup_state] using h4

/-- Witness for C8: a concrete run in which the publisher options post fails
with a 500 yet the caller still receives the success payload. -/
theorem C8_publisher_best_effort_witness :
    (run_setup (some cTok) none none cEnvPubFail).result
        = SetupResult.success (resolvedProjectId none cEnvPubFail)
            (reportedUrl (get_setup_state none).server_url cEnvPubFail)
            (resolvedPassword none cEnvPubFail) ∧
    stepOf (run_setup (some cTok) none none cEnvPubFail).state = "complete" :=
  ⟨(C8_publisher_best_effort cTok none none cEnvPubFail
      (by decide) (by decide) (by decide)).1 (by decide),
    (C8_publisher_best_effort cTok none none cEnvPubFail
      (by decide) (by decide) (by decide)).2.2⟩

/-- Claim C4 (confirmed): the verifier produced by `auth_start` is the
unpadded base64url encoding of the 64 fresh random bytes — an injective image
of 64 ≥ 32 bytes of entropy, containing no padding character — and the
challenge equals `base64url_nopad(sha256(verifier))`, sent in the parameters
together with `code_challenge_method` equal to S256. -/
theorem C4_pkce (randBytes : List Nat) (urlRoot ingressPath : String)
    (hlen : randBytes.length = 64) (hbyte : ∀ b ∈ randBytes, b < 256) :
    (auth_start randBytes urlRoot ingressPath).code_verifier
        = String.mk (b64EncNoPad randBytes) ∧
    '=' ∉ (auth_start randBytes urlRoot ingressPath).code_verifier.data ∧
    (∀ rand2 : List Nat, (∀ b ∈ rand2, b < 256) →
      (auth_start rand2 urlRoot ingressPath).code_verifier
          = (auth_start randBytes urlRoot ingressPath).code_verifier → rand2 = randBytes) ∧
    32 ≤ randBytes.length ∧
    (auth_start randBytes urlRoot ingressPath).code_challenge
        = String.mk (b64EncNoPad (sha256 (strBytes
            (auth_start randBytes urlRoot ingressPath).code_verifier))) ∧
    (auth_start randBytes urlRoot ingressPath).params.lookup "code_challenge"
        = some (auth_start randBytes urlRoot ingressPath).code_challenge ∧
    (auth_start randBytes urlRoot ingressPath).params.lookup "code_challenge_method"
        = some "S256" := by
  refine ⟨?_, ?_, ?_, ?_, ?_, ?_, ?_⟩
  · simp [auth_start, token_urlsafe, rstrip_b64EncPadded]
  · simpa [auth_start, token_urlsafe, rstrip_b64EncPadded] using
      pad_not_mem_b64EncNoPad randBytes
  · intro rand2 hb2 he
    simp only [auth_start, token_urlsafe, rstrip_b64EncPadded] at he
    exact b64EncNoPad_inj rand2 randBytes hb2 hbyte (by simpa using congrArg String.data he)
  · omega
  · simp [auth_start, token_urlsafe, rstrip_b64EncPadded]
  · rfl
  · rfl

/-- Witness for C4 on a concrete 64-byte random input. -/
theorem C4_pkce_witness :
    32 ≤ (List.range 64).length ∧
    (auth_start (List.range 64) "http://homeassistant.local:8099/" "").params.lookup
        "code_challenge_method" = some "S256" :=
  ⟨(C4_pkce (List.range 64) "http://homeassistant.local:8099/" ""
      (by decide) (by decide)).2.2.2.1,
    (C4_pkce (List.range 64) "http://homeassistant.local:8099/" ""
      (by decide) (by decide)).2.2.2.2.2.2⟩

end GcpTunnel
